import Mathlib

/-!
Shallow embedding of the analysis core of the steam-hardware-analyzer
repository: the bottleneck scorer (`src/lib/algorithms/bottleneck-calc.ts`),
the market-trend detector and predictor, and the user-profile clusterer
(`src/lib/data-processor/ingestion.ts`).

Conventions of the embedding:
* JavaScript numbers are modelled as exact rationals (`ℚ`); floating-point
  rounding error is outside the model.  `Math.round` is `jsRound` below.
* `Math.sqrt` only occurs in the trend-confidence computation (where it is
  kept, over `ℝ`, as `Real.sqrt`) and inside the clustering distance, where
  every use is a strict comparison of two distances or of a distance against
  the constant tolerance; since `Real.sqrt` is strictly monotone on
  nonnegative arguments those comparisons are decided identically on the
  squared values, which is how `calculateDistanceSq` embeds them.
* `s.includes(t)` on lower-cased strings is `jsIncludes`; `x || d` on numbers
  (`0` falsy) is `jsOr`.
* Dates are month indices (`ℤ`): the sources compare, sort, take max/min of
  dates and measure whole-month differences, and every operation used factors
  through that abstraction.
-/

/-- JavaScript `Math.round`: round half towards positive infinity,
`Math.round x = ⌊x + 1/2⌋`. -/
def jsRound (q : ℚ) : ℚ := ((⌊q + 1/2⌋ : ℤ) : ℚ)

/-- Does `pat` occur as a contiguous character subsequence?  (The empty
pattern occurs everywhere, as with JavaScript `includes`.) -/
def hasSubstr (pat : List Char) : List Char → Bool
  | [] => pat.isEmpty
  | c :: rest => pat.isPrefixOf (c :: rest) || hasSubstr pat rest

/-- JavaScript `s.includes(pat)`. -/
def jsIncludes (s pat : String) : Bool := hasSubstr pat.data s.data

/-- JavaScript `s.toLowerCase()` (the sources only apply it to ASCII model and
architecture names): lower-case every character. -/
def strLower (s : String) : String := String.mk (s.data.map Char.toLower)

/-- JavaScript `x || d` for numbers, where `0` is falsy. -/
def jsOr (x d : ℚ) : ℚ := if x = 0 then d else x

/-! ## Bottleneck scorer (`bottleneck-calc.ts`) -/

/-- Source `GPUData` (`types/hardware.ts`), restricted to the fields the bottleneck
scorer reads (`performanceScore`, `vram`, `architecture`); `model` kept as
identification.  `manufacturer`, `tier`, `releaseDate`, `marketShare` are
never read by `bottleneck-calc.ts`. -/
structure GPUData where
  model : String
  performanceScore : ℚ
  vram : ℚ
  architecture : String
deriving DecidableEq

/-- Source `CPUData` (`types/hardware.ts`), restricted to the fields the bottleneck
scorer reads; `manufacturer` is read by `generateCPUUpgrades`. -/
structure CPUData where
  model : String
  manufacturer : String
  performanceScore : ℚ
  cores : ℚ
  threads : ℚ
  baseFreq : ℚ
  boostFreq : ℚ
deriving DecidableEq

/-- Source `GameRequirements` (`types/steam-data.ts`), restricted to the two fields
the bottleneck scorer reads: `name` (FPS baseline lookup) and
`recommendedVRAM`. -/
structure GameRequirements where
  name : String
  recommendedVRAM : ℚ
deriving DecidableEq

inductive BottleneckType where
  | GPU
  | CPU
  | Memory
  | None
deriving DecidableEq

inductive UpgradeComponent where
  | GPU
  | CPU
  | Memory
deriving DecidableEq

/-- One element of `BottleneckAnalysis.upgradeOptions`.  `expectedImprovement`
is an `Option`: `none` models the non-finite number (JavaScript `Infinity`)
produced when the improvement formula divides by a zero current score. -/
structure UpgradeOption where
  component : UpgradeComponent
  suggestions : List String
  expectedImprovement : Option ℚ
deriving DecidableEq

structure BottleneckAnalysis where
  gpu : GPUData
  cpu : CPUData
  targetGame : GameRequirements
  bottleneckType : BottleneckType
  performanceScore : ℚ
  expectedFPS : ℚ
  recommendations : List String
  upgradeOptions : List UpgradeOption
deriving DecidableEq

def calculateVRAMMultiplier (gpuVRAM gameVRAM : ℚ) : ℚ :=
  let rt := gpuVRAM / max gameVRAM 1
  if 2 ≤ rt then 1.1
  else if 1.5 ≤ rt then 1.05
  else if 1 ≤ rt then 1.0
  else if 0.75 ≤ rt then 0.9
  else if 0.5 ≤ rt then 0.7
  else 0.5

def getArchitectureBonus (architecture : String) : ℚ :=
  let arch := strLower architecture
  if jsIncludes arch "ada" || jsIncludes arch "rdna3" then 5
  else if jsIncludes arch "ampere" || jsIncludes arch "rdna2" then 3
  else if jsIncludes arch "turing" || jsIncludes arch "rdna" then 1
  else 0

def calculateCoreMultiplier (cores threads : ℚ) : ℚ :=
  let effectiveCores := min (cores + (threads - cores) * 0.3) (cores * 2)
  if 12 ≤ effectiveCores then 1.1
  else if 8 ≤ effectiveCores then 1.05
  else if 6 ≤ effectiveCores then 1.0
  else if 4 ≤ effectiveCores then 0.95
  else 0.85

def calculateFrequencyBonus (baseFreq boostFreq : ℚ) : ℚ :=
  let effectiveFreq := baseFreq * 0.7 + boostFreq * 0.3
  if 4.5 ≤ effectiveFreq then 5
  else if 4.0 ≤ effectiveFreq then 3
  else if 3.5 ≤ effectiveFreq then 1
  else 0

def calculateGPUScore (gpu : GPUData) (game : GameRequirements) : ℚ :=
  min 100 (gpu.performanceScore * calculateVRAMMultiplier gpu.vram game.recommendedVRAM
    + getArchitectureBonus gpu.architecture)

def calculateCPUScore (cpu : CPUData) : ℚ :=
  min 100 (cpu.performanceScore * calculateCoreMultiplier cpu.cores cpu.threads
    + calculateFrequencyBonus cpu.baseFreq cpu.boostFreq)

/-- Models `game.recommendedVRAM || 4`: a zero recommended VRAM falls back to 4. -/
def calculateMemoryScore (vram : ℚ) (game : GameRequirements) : ℚ :=
  let required := jsOr game.recommendedVRAM 4
  if required * 1.5 ≤ vram then 100
  else if required ≤ vram then 85
  else if required * 0.75 ≤ vram then 65
  else if required * 0.5 ≤ vram then 40
  else 20

def determineBottleneckType (gpuScore cpuScore memoryScore : ℚ) : BottleneckType :=
  let threshold : ℚ := 15
  let minScore := min gpuScore (min cpuScore memoryScore)
  if 80 < minScore then .None
  else if gpuScore < cpuScore - threshold ∧ gpuScore < memoryScore - threshold then .GPU
  else if cpuScore < gpuScore - threshold ∧ cpuScore < memoryScore - threshold then .CPU
  else if memoryScore < gpuScore - threshold ∧ memoryScore < cpuScore - threshold then .Memory
  else if gpuScore < cpuScore ∧ gpuScore < memoryScore then .GPU
  else if cpuScore < gpuScore ∧ cpuScore < memoryScore then .CPU
  else if memoryScore < gpuScore ∧ memoryScore < cpuScore then .Memory
  else .None

def calculateOverallPerformance (gpuScore cpuScore memoryScore : ℚ) : ℚ :=
  jsRound (gpuScore * 0.6 + cpuScore * 0.3 + memoryScore * 0.1)

def getBaselineFPS (gameName : String) : ℚ :=
  let game := strLower gameName
  if jsIncludes game "cyberpunk" then 45
  else if jsIncludes game "red dead" then 50
  else if jsIncludes game "call of duty" then 90
  else if jsIncludes game "fortnite" then 120
  else if jsIncludes game "valorant" then 200
  else if jsIncludes game "counter-strike" then 180
  else if jsIncludes game "apex" then 100
  else if jsIncludes game "battlefield" then 70
  else if jsIncludes game "assassin" then 55
  else if jsIncludes game "witcher" then 60
  else 60

def estimateExpectedFPS (performanceScore : ℚ) (game : GameRequirements) : ℚ :=
  jsRound (getBaselineFPS game.name * (performanceScore / 100))

def generateRecommendations (bottleneckType : BottleneckType)
    (gpuScore cpuScore memoryScore : ℚ) : List String :=
  match bottleneckType with
  | .GPU =>
    ["GPU is the primary bottleneck limiting performance"]
      ++ (if gpuScore < 50 then
            ["Consider upgrading to a more powerful GPU",
             "Lower graphics settings to improve performance"] else [])
      ++ ["Reduce resolution or enable DLSS/FSR if available"]
  | .CPU =>
    ["CPU is limiting GPU performance"]
      ++ (if cpuScore < 50 then ["Consider upgrading to a faster CPU"] else [])
      ++ ["Lower CPU-intensive settings like draw distance",
          "Close background applications to free CPU resources"]
  | .Memory =>
    ["Insufficient VRAM is causing performance issues",
     "Lower texture quality and resolution",
     "Disable high VRAM features like ray tracing"]
      ++ (if memoryScore < 40 then ["Consider GPU upgrade for more VRAM"] else [])
  | .None =>
    ["System is well-balanced for this game",
     "Try increasing graphics settings for better quality"]
      ++ (if 90 < gpuScore ∧ 90 < cpuScore then
            ["Enable ray tracing or other enhanced features"] else [])

def generateGPUUpgrades (currentGPU : GPUData) : List String :=
  let currentScore := currentGPU.performanceScore
  (if currentScore < 50 then ["RTX 4060 / RX 7600", "RTX 4070 / RX 7700 XT"]
   else if currentScore < 70 then ["RTX 4070 Ti / RX 7800 XT", "RTX 4080 / RX 7900 XTX"]
   else if currentScore < 85 then ["RTX 4080 Super", "RTX 4090"]
   else []).take 3

def generateCPUUpgrades (currentCPU : CPUData) : List String :=
  let currentScore := currentCPU.performanceScore
  (if currentCPU.manufacturer = "Intel" then
    if currentScore < 50 then ["Intel i5-13400F", "Intel i5-14600K"]
    else if currentScore < 70 then ["Intel i7-13700K", "Intel i7-14700K"]
    else ["Intel i9-13900K", "Intel i9-14900K"]
  else
    if currentScore < 50 then ["AMD Ryzen 5 7600X", "AMD Ryzen 7 7700X"]
    else if currentScore < 70 then ["AMD Ryzen 7 7800X3D", "AMD Ryzen 9 7900X"]
    else ["AMD Ryzen 9 7950X", "AMD Ryzen 9 7950X3D"]).take 3

def generateMemoryUpgrades (currentVRAM requiredVRAM : ℚ) : List String :=
  (if currentVRAM < 8 then ["Upgrade to 8GB VRAM GPU"] else [])
    ++ (if currentVRAM < 12 then ["Upgrade to 12GB VRAM GPU"] else [])
    ++ (if 12 < requiredVRAM then ["Upgrade to 16GB+ VRAM GPU"] else [])

/-- Computes `Math.round(((min(90, cur + 25) - cur) / cur) * 100)`.  In JavaScript the
division by a zero `currentScore` yields `Infinity`; that non-finite outcome
is modelled as `none`. -/
def calculateGPUUpgradeImprovement (gpu : GPUData) : Option ℚ :=
  let currentScore := gpu.performanceScore
  if currentScore = 0 then none
  else some (jsRound ((min 90 (currentScore + 25) - currentScore) / currentScore * 100))

/-- CPU analogue of `calculateGPUUpgradeImprovement`, with target
`min(90, cur + 20)`; `none` models the non-finite value at `cur = 0`. -/
def calculateCPUUpgradeImprovement (cpu : CPUData) : Option ℚ :=
  let currentScore := cpu.performanceScore
  if currentScore = 0 then none
  else some (jsRound ((min 90 (currentScore + 20) - currentScore) / currentScore * 100))

def calculateMemoryUpgradeImprovement (currentVRAM requiredVRAM : ℚ) : ℚ :=
  if requiredVRAM * 1.5 ≤ currentVRAM then 5
  else if requiredVRAM ≤ currentVRAM then 15
  else if requiredVRAM * 0.75 ≤ currentVRAM then 30
  else 50

/-- Source `generateUpgradeOptions`: the source pushes up to three option records in
GPU, CPU, Memory order, each under its own condition; modelled as the
concatenation of three conditional singletons. -/
def generateUpgradeOptions (gpu : GPUData) (cpu : CPUData) (game : GameRequirements)
    (bottleneckType : BottleneckType) : List UpgradeOption :=
  (if bottleneckType = .GPU ∨ gpu.performanceScore < 70 then
    [⟨.GPU, generateGPUUpgrades gpu, calculateGPUUpgradeImprovement gpu⟩] else [])
  ++ (if bottleneckType = .CPU ∨ cpu.performanceScore < 70 then
    [⟨.CPU, generateCPUUpgrades cpu, calculateCPUUpgradeImprovement cpu⟩] else [])
  ++ (if bottleneckType = .Memory ∨ gpu.vram < game.recommendedVRAM then
    [⟨.Memory, generateMemoryUpgrades gpu.vram game.recommendedVRAM,
      some (calculateMemoryUpgradeImprovement gpu.vram game.recommendedVRAM)⟩] else [])

def calculateBottleneck (gpu : GPUData) (cpu : CPUData) (targetGame : GameRequirements) :
    BottleneckAnalysis :=
  let gpuScore := calculateGPUScore gpu targetGame
  let cpuScore := calculateCPUScore cpu
  let memoryScore := calculateMemoryScore gpu.vram targetGame
  let bottleneckType := determineBottleneckType gpuScore cpuScore memoryScore
  let performanceScore := calculateOverallPerformance gpuScore cpuScore memoryScore
  { gpu := gpu
    cpu := cpu
    targetGame := targetGame
    bottleneckType := bottleneckType
    performanceScore := performanceScore
    expectedFPS := estimateExpectedFPS performanceScore targetGame
    recommendations := generateRecommendations bottleneckType gpuScore cpuScore memoryScore
    upgradeOptions := generateUpgradeOptions gpu cpu targetGame bottleneckType }

/-! ## Trend detector (`trend-detection` part of the data processor) -/

/-- Source `GPUMarketShare` (`types/hardware.ts`).  Its `date` is the observation's month
index (the source only compares, sorts, maxes and takes whole-month
differences of dates). -/
structure GPUMarketShare where
  gpuModel : String
  percentage : ℚ
  date : ℤ
deriving DecidableEq

structure TimeSeriesData where
  date : ℤ
  value : ℚ
deriving DecidableEq

inductive TrendDirection where
  | growing
  | declining
  | stable
deriving DecidableEq

/-- Source `ModelTrend` (`trend-detection`): per-model classification record. -/
structure ModelTrend where
  direction : TrendDirection
  rate : ℚ
  confidence : ℝ
  dataPoints : ℕ

structure TrendAnalysis where
  timeframe : String
  growing : List String
  declining : List String
  stable : List String
  fastestGrowth : String × ℚ
  fastestDecline : String × ℚ
  marketLeader : String × ℚ

/-- One step of `groupByModel`'s `reduce`: append the entry to its model's
group if the key exists, otherwise append a new key (JavaScript object keys
keep insertion order). -/
def insertEntry (groups : List (String × List GPUMarketShare)) (e : GPUMarketShare) :
    List (String × List GPUMarketShare) :=
  match groups with
  | [] => [(e.gpuModel, [e])]
  | (m, pts) :: rest =>
    if m = e.gpuModel then (m, pts ++ [e]) :: rest
    else (m, pts) :: insertEntry rest e

def groupByModel (historical : List GPUMarketShare) : List (String × List GPUMarketShare) :=
  historical.foldl insertEntry []

/-- Stable insertion of a point into a date-sorted list (an element moves
before another only when its date is strictly smaller), matching the stable
`sort((a, b) => a.date - b.date)` of the source. -/
def insertByDate (x : GPUMarketShare) : List GPUMarketShare → List GPUMarketShare
  | [] => [x]
  | y :: ys => if x.date < y.date then x :: y :: ys else y :: insertByDate x ys

/-- The source's stable ascending-by-date sort of a model's observations. -/
def sortPoints (l : List GPUMarketShare) : List GPUMarketShare :=
  l.foldr insertByDate []

/-- Source `calculateMovingAverages`: for `i` from `window - 1` to `length - 1`, the
average of `dataPoints.slice(i - window + 1, i + 1)` divided by `window`,
stamped with the date of point `i`.  When fewer points than the window exist
the loop body never runs and the result is `[]`. -/
def calculateMovingAverages (dataPoints : List GPUMarketShare) (window : ℕ) :
    List TimeSeriesData :=
  ((List.range dataPoints.length).drop (window - 1)).map (fun i =>
    let windowData := (dataPoints.take (i + 1)).drop (i + 1 - window)
    { date := (dataPoints.getD i ⟨"", 0, 0⟩).date
      value := (windowData.map (fun p => p.percentage)).sum / (window : ℚ) })

/-- Source `calculateTrendSlope`: ordinary least squares over positional indices.
The `isNaN` guard of the source cannot fire over `ℚ`; the zero-denominator
guard is kept. -/
def calculateTrendSlope (movingAverages : List TimeSeriesData) : ℚ :=
  if movingAverages.length < 2 then 0
  else
    let n : ℚ := movingAverages.length
    let xValues := (List.range movingAverages.length).map (fun i => (i : ℚ))
    let yValues := movingAverages.map (fun p => p.value)
    let sumX := xValues.sum
    let sumY := yValues.sum
    let sumXY := ((xValues.zip yValues).map (fun p => p.1 * p.2)).sum
    let sumXX := (xValues.map (fun x => x * x)).sum
    let denominator := n * sumXX - sumX * sumX
    if denominator = 0 then 0
    else (n * sumXY - sumX * sumY) / denominator

/-- Source `calculateTrendConfidence`: fewer than 3 points gives 0; standard deviation 0 gives
1; otherwise volatility-normalised slope times the data-richness factor. -/
noncomputable def calculateTrendConfidence (dataPoints : List GPUMarketShare) (slope : ℚ) : ℝ :=
  if dataPoints.length < 3 then 0
  else
    let values := dataPoints.map (fun p => p.percentage)
    let mean := values.sum / (values.length : ℚ)
    let variance := (values.map (fun v => (v - mean) ^ 2)).sum / (values.length : ℚ)
    let stdDev := Real.sqrt (variance : ℝ)
    if stdDev = 0 then 1
    else
      let normalizedSlope := |(slope : ℝ)| / stdDev
      min normalizedSlope 1 * min ((dataPoints.length : ℝ) / 12) 1

def determineTrendDirection (slope : ℚ) : TrendDirection :=
  let threshold : ℚ := 0.1
  if threshold < slope then .growing
  else if slope < -threshold then .declining
  else .stable

noncomputable def analyzeModelTrends (historical : List GPUMarketShare) (window : ℕ) :
    List (String × ModelTrend) :=
  (groupByModel historical).map (fun g =>
    let sortedPoints := sortPoints g.2
    if sortedPoints.length < 2 then
      (g.1, ⟨.stable, 0, 0, sortedPoints.length⟩)
    else
      let movingAverages := calculateMovingAverages sortedPoints window
      let trendSlope := calculateTrendSlope movingAverages
      let confidence := calculateTrendConfidence sortedPoints trendSlope
      (g.1, ⟨determineTrendDirection trendSlope, |trendSlope|, confidence, sortedPoints.length⟩))

def isDirection (d : TrendDirection) (p : String × ModelTrend) : Bool :=
  match p.2.direction, d with
  | .growing, .growing => true
  | .declining, .declining => true
  | .stable, .stable => true
  | _, _ => false

noncomputable def findFastestGrowth (trends : List (String × ModelTrend)) : String × ℚ :=
  let r := trends.foldl (fun acc p =>
    if p.2.direction = .growing ∧ acc.2 < p.2.rate ∧ (0.3 : ℝ) < p.2.confidence
    then (p.1, p.2.rate) else acc) ("", 0)
  (if r.1 = "" then "None" else r.1, r.2)

noncomputable def findFastestDecline (trends : List (String × ModelTrend)) : String × ℚ :=
  let r := trends.foldl (fun acc p =>
    if p.2.direction = .declining ∧ acc.2 < p.2.rate ∧ (0.3 : ℝ) < p.2.confidence
    then (p.1, p.2.rate) else acc) ("", 0)
  (if r.1 = "" then "None" else r.1, r.2)

/-- Source `findMarketLeader`: among the entries carrying the single latest date,
the greatest percentage, first occurrence winning ties. -/
def findMarketLeader (historical : List GPUMarketShare) : String × ℚ :=
  if historical.length = 0 then ("None", 0)
  else
    let latestDate := ((historical.map (fun e => e.date)).maximum?).getD 0
    let latestData := historical.filter (fun e => decide (e.date = latestDate))
    match latestData with
    | [] => ("None", 0)
    | h :: t =>
      let leader := t.foldl (fun mx cur => if mx.percentage < cur.percentage then cur else mx) h
      (leader.gpuModel, leader.percentage)

/-- Source `calculateTimeframe`: whole-month difference between the extreme dates,
rendered as text. -/
def calculateTimeframe (historical : List GPUMarketShare) : String :=
  if historical.length = 0 then "No data"
  else
    let dates := historical.map (fun e => e.date)
    let minDate := (dates.minimum?).getD 0
    let maxDate := (dates.maximum?).getD 0
    let monthsDiff := (maxDate - minDate).toNat
    if monthsDiff < 1 then "Less than 1 month"
    else if monthsDiff < 12 then toString monthsDiff ++ " months"
    else
      let years := monthsDiff / 12
      let remainingMonths := monthsDiff % 12
      if remainingMonths = 0 then
        if years = 1 then "1 year" else toString years ++ " years"
      else
        toString years ++ " year" ++ (if 1 < years then "s" else "") ++ " "
          ++ toString remainingMonths ++ " month" ++ (if 1 < remainingMonths then "s" else "")

def createEmptyTrendAnalysis : TrendAnalysis :=
  { timeframe := "No data"
    growing := []
    declining := []
    stable := []
    fastestGrowth := ("None", 0)
    fastestDecline := ("None", 0)
    marketLeader := ("None", 0) }

noncomputable def detectMarketTrends (historical : List GPUMarketShare) (window : ℕ := 6) :
    TrendAnalysis :=
  if historical.length = 0 then createEmptyTrendAnalysis
  else
    let trendsByModel := analyzeModelTrends historical window
    { timeframe := calculateTimeframe historical
      growing := (trendsByModel.filter (isDirection .growing)).map (fun p => p.1)
      declining := (trendsByModel.filter (isDirection .declining)).map (fun p => p.1)
      stable := (trendsByModel.filter (isDirection .stable)).map (fun p => p.1)
      fastestGrowth := findFastestGrowth trendsByModel
      fastestDecline := findFastestDecline trendsByModel
      marketLeader := findMarketLeader historical }

/-- Source `predictMarketEvolution`: per model, linear extrapolation from the latest
point with the OLS slope of the moving averages over a window of
`min 6 length`, each forecast clamped into `[0, 100]`. -/
def predictMarketEvolution (historical : List GPUMarketShare) (monthsAhead : ℕ := 6) :
    List GPUMarketShare :=
  let latestDate := ((historical.map (fun e => e.date)).maximum?).getD 0
  (groupByModel historical).foldl (fun predictions g =>
    let sortedPoints := sortPoints g.2
    match sortedPoints.getLast? with
    | none => predictions
    | some latestPoint =>
      let trendSlope := calculateTrendSlope
        (calculateMovingAverages sortedPoints (min 6 sortedPoints.length))
      predictions ++ (List.range monthsAhead).map (fun m =>
        { gpuModel := g.1
          percentage := max 0 (min 100 (latestPoint.percentage + trendSlope * ((m + 1 : ℕ) : ℚ)))
          date := latestDate + (m + 1 : ℕ) })) []

/-- The confidence formula exactly as the specification words it:
`min(|slope| / standardDeviation(rawPercentages), 1) × min(pointCount / 12, 1)`,
with the convention that a zero standard deviation gives confidence 1. -/
noncomputable def specTrendConfidence (values : List ℚ) (slope : ℚ) : ℝ :=
  let mean := values.sum / (values.length : ℚ)
  let variance := (values.map (fun v => (v - mean) ^ 2)).sum / (values.length : ℚ)
  let stdDev := Real.sqrt (variance : ℝ)
  if stdDev = 0 then 1
  else min (|(slope : ℝ)| / stdDev) 1 * min ((values.length : ℝ) / 12) 1

/-! ## Profile clusterer (`clustering` part of the data processor) -/

structure CPUMarketShare where
  cpuModel : String
  percentage : ℚ
  date : ℤ
deriving DecidableEq

structure ResolutionStats where
  resolution : String
  percentage : ℚ
  date : ℤ
deriving DecidableEq

structure MemoryStats where
  memory : String
  percentage : ℚ
  date : ℤ
deriving DecidableEq

structure HardwareSurveyEntry where
  date : ℤ
  gpuDistribution : List GPUMarketShare
  cpuDistribution : List CPUMarketShare
  resolutionData : List ResolutionStats
  vramDistribution : List MemoryStats
deriving DecidableEq

structure ClusterPoint where
  gpuPerformance : ℚ
  cpuPerformance : ℚ
  memoryTier : ℚ
  userId : String
deriving DecidableEq

structure UserCluster where
  id : String
  name : String
  avgPerformanceScore : ℚ
  commonGPUs : List String
  commonCPUs : List String
  userCount : ℕ
  percentage : ℚ
deriving DecidableEq

def estimateGPUPerformance (gpuModel : String) : ℚ :=
  let model := strLower gpuModel
  if jsIncludes model "rtx 4090" then 100
  else if jsIncludes model "rtx 4080" then 95
  else if jsIncludes model "rtx 4070" then 85
  else if jsIncludes model "rtx 4060" then 75
  else if jsIncludes model "rtx 3090" then 90
  else if jsIncludes model "rtx 3080" then 88
  else if jsIncludes model "rtx 3070" then 80
  else if jsIncludes model "rtx 3060" then 70
  else if jsIncludes model "rx 7900" then 92
  else if jsIncludes model "rx 7800" then 82
  else if jsIncludes model "rx 7700" then 78
  else if jsIncludes model "rx 6900" then 85
  else if jsIncludes model "rx 6800" then 83
  else if jsIncludes model "rx 6700" then 75
  else if jsIncludes model "rx 6600" then 65
  else if jsIncludes model "gtx 1660" then 55
  else if jsIncludes model "gtx 1650" then 45
  else if jsIncludes model "gtx 1060" then 50
  else 40

def estimateCPUPerformance (cpuModel : String) : ℚ :=
  let model := strLower cpuModel
  if jsIncludes model "i9" || jsIncludes model "ryzen 9" then 95
  else if jsIncludes model "i7" || jsIncludes model "ryzen 7" then 85
  else if jsIncludes model "i5" || jsIncludes model "ryzen 5" then 75
  else if jsIncludes model "i3" || jsIncludes model "ryzen 3" then 60
  else 50

/-- Source `parseMemoryTier`: strip the non-digits, `parseInt` the rest (an empty
digit string is `NaN`, which fails every `≥` comparison and lands on tier 0),
and bucket into the ordinal 0-4 scale. -/
def parseMemoryTier (memory : String) : ℚ :=
  let digits := memory.data.filter Char.isDigit
  if digits.isEmpty then 0
  else
    let memoryValue := digits.foldl (fun n c => n * 10 + (c.toNat - 48)) (0 : ℕ)
    if 32 ≤ memoryValue then 4
    else if 16 ≤ memoryValue then 3
    else if 8 ≤ memoryValue then 2
    else if 4 ≤ memoryValue then 1
    else 0

/-- Models `cpuData?.cpuModel || 'Unknown'`: a missing record or an empty (falsy)
model string falls back to `"Unknown"`. -/
def cpuModelOrUnknown (cpuData : Option CPUMarketShare) : String :=
  match cpuData with
  | none => "Unknown"
  | some c => if c.cpuModel = "" then "Unknown" else c.cpuModel

/-- Source `extractClusterPoints`: one feature point per (entry, GPU-slot) pair; the
CPU at the same index, else the first CPU; the first memory bucket, else the
`8GB/50` default. -/
def extractClusterPoints (surveyData : List HardwareSurveyEntry) : List ClusterPoint :=
  (surveyData.enum.map (fun ei =>
    ei.2.gpuDistribution.enum.map (fun gi =>
      let cpuData := (ei.2.cpuDistribution.get? gi.1).orElse (fun _ => ei.2.cpuDistribution.get? 0)
      let memoryData := (ei.2.vramDistribution.get? 0).getD ⟨"8GB", 50, 0⟩
      { gpuPerformance := estimateGPUPerformance gi.2.gpuModel
        cpuPerformance := estimateCPUPerformance (cpuModelOrUnknown cpuData)
        memoryTier := parseMemoryTier memoryData.memory
        userId := toString ei.1 ++ "-" ++ toString gi.1 }))).join

/-- Squared Euclidean distance between feature points.  The source computes
`Math.sqrt` of this value; its every use is a strict `<` between two
distances (`assignPointsToClusters`) or a `>` against the constant tolerance
`1e-4` (`centroidsConverged`), and `Real.sqrt` is strictly monotone on
nonnegatives, so the squared values (against the squared tolerance) decide
exactly the same comparisons. -/
def calculateDistanceSq (p1 p2 : ClusterPoint) : ℚ :=
  (p1.gpuPerformance - p2.gpuPerformance) * (p1.gpuPerformance - p2.gpuPerformance)
    + (p1.cpuPerformance - p2.cpuPerformance) * (p1.cpuPerformance - p2.cpuPerformance)
    + (p1.memoryTier - p2.memoryTier) * (p1.memoryTier - p2.memoryTier)

/-- Source `initializeCentroids`: `k` samples (with replacement) at uniformly random
indices `Math.floor(Math.random() * points.length)`.  The randomness is made
explicit: `seeds i % points.length` ranges over exactly the indices the
source can draw, and theorems quantify over every `seeds`. -/
def initializeCentroids (points : List ClusterPoint) (k : ℕ) (seeds : ℕ → ℕ) :
    List ClusterPoint :=
  (List.range k).map (fun i =>
    let p := points.getD (seeds i % points.length) ⟨0, 0, 0, ""⟩
    { p with userId := "centroid-" ++ toString i })

/-- The index-tracking minimum search of `assignPointsToClusters`' inner loop:
start from centroid 0, replace only on strictly smaller distance. -/
def closestAux (point : ClusterPoint) : List ClusterPoint → ℕ → ℕ × ℚ → ℕ × ℚ
  | [], _, acc => acc
  | c :: rest, i, acc =>
    let distance := calculateDistanceSq point c
    closestAux point rest (i + 1) (if distance < acc.2 then (i, distance) else acc)

def closestCentroidIndex (point : ClusterPoint) (centroids : List ClusterPoint) : ℕ :=
  match centroids with
  | [] => 0
  | c0 :: rest => (closestAux point rest 1 (0, calculateDistanceSq point c0)).1

/-- Source `assignPointsToClusters`: the source pushes each point, in input order,
onto the cluster of its closest centroid; cluster `i` is therefore the
in-order sublist of points whose closest centroid index is `i`. -/
def assignPointsToClusters (points centroids : List ClusterPoint) :
    List (List ClusterPoint) :=
  (List.range centroids.length).map (fun i =>
    points.filter (fun p => decide (closestCentroidIndex p centroids = i)))

def calculateNewCentroids (clusters : List (List ClusterPoint)) : List ClusterPoint :=
  clusters.enum.map (fun ic =>
    if ic.2.length = 0 then ⟨0, 0, 0, "empty-centroid-" ++ toString ic.1⟩
    else
      { gpuPerformance := (ic.2.map (fun p => p.gpuPerformance)).sum / (ic.2.length : ℚ)
        cpuPerformance := (ic.2.map (fun p => p.cpuPerformance)).sum / (ic.2.length : ℚ)
        memoryTier := (ic.2.map (fun p => p.memoryTier)).sum / (ic.2.length : ℚ)
        userId := "centroid-" ++ toString ic.1 })

/-- Squared tolerance: the source breaks when no centroid moved by a distance
above `1e-4`; on squared distances the threshold is `1e-8`. -/
def toleranceSq : ℚ := 1e-8

def centroidsConverged (old new_ : List ClusterPoint) (tolSq : ℚ) : Bool :=
  if old.length ≠ new_.length then false
  else (old.zip new_).all (fun p => decide (calculateDistanceSq p.1 p.2 ≤ tolSq))

/-- The `for (iteration …)` loop of `performKMeansClustering`, with the
remaining iteration count as fuel: reassign, recompute centroids, stop on
convergence or when this was the last allowed iteration. -/
def kmeansGo (points : List ClusterPoint) : List ClusterPoint → ℕ → List (List ClusterPoint)
  | _, 0 => []
  | centroids, fuel + 1 =>
    let clusters := assignPointsToClusters points centroids
    let newCentroids := calculateNewCentroids clusters
    if centroidsConverged centroids newCentroids toleranceSq || fuel == 0 then clusters
    else kmeansGo points newCentroids fuel

def performKMeansClustering (points : List ClusterPoint) (k : ℕ) (seeds : ℕ → ℕ) :
    List (List ClusterPoint) :=
  kmeansGo points (initializeCentroids points k seeds) 100

/-- Weighted tallying into a JavaScript object: add to an existing key's
value, or append the new key (object keys keep insertion order). -/
def addWeight (counts : List (String × ℚ)) (key : String) (w : ℚ) : List (String × ℚ) :=
  match counts with
  | [] => [(key, w)]
  | (k, v) :: rest =>
    if k = key then (k, v + w) :: rest
    else (k, v) :: addWeight rest key w

/-- Stable insertion into a descending-by-weight list, matching the stable
`sort(([, a], [, b]) => b - a)` of the source. -/
def insertDesc (x : String × ℚ) : List (String × ℚ) → List (String × ℚ)
  | [] => [x]
  | y :: ys => if y.2 < x.2 then x :: y :: ys else y :: insertDesc x ys

def sortByWeightDesc (l : List (String × ℚ)) : List (String × ℚ) :=
  l.foldr insertDesc []

/-- Source `extractCommonGPUs`: top 3 GPU models by percentage-weighted tally over
the whole survey data.  The `cluster` parameter is accepted and never read,
exactly as in the source. -/
def extractCommonGPUs (cluster : List ClusterPoint) (surveyData : List HardwareSurveyEntry) :
    List String :=
  let gpuCounts := surveyData.foldl (fun counts entry =>
    entry.gpuDistribution.foldl (fun counts gpu =>
      addWeight counts gpu.gpuModel (jsOr gpu.percentage 1)) counts) []
  ((sortByWeightDesc gpuCounts).take 3).map (fun p => p.1)

/-- Source `extractCommonCPUs`: CPU analogue of `extractCommonGPUs`; the `cluster`
parameter is likewise never read. -/
def extractCommonCPUs (cluster : List ClusterPoint) (surveyData : List HardwareSurveyEntry) :
    List String :=
  let cpuCounts := surveyData.foldl (fun counts entry =>
    entry.cpuDistribution.foldl (fun counts cpu =>
      addWeight counts cpu.cpuModel (jsOr cpu.percentage 1)) counts) []
  ((sortByWeightDesc cpuCounts).take 3).map (fun p => p.1)

def getClusterName (avgPerformance : ℚ) : String :=
  if 80 ≤ avgPerformance then "Enthusiast Gamers"
  else if 60 ≤ avgPerformance then "High-End Users"
  else if 40 ≤ avgPerformance then "Mid-Range Gaming"
  else if 20 ≤ avgPerformance then "Budget Gaming"
  else "Entry-Level Users"

def formatClusters (clusters : List (List ClusterPoint)) (surveyData : List HardwareSurveyEntry) :
    List UserCluster :=
  (clusters.enum.map (fun ic =>
    let avgPerformance : ℚ :=
      if 0 < ic.2.length then
        (ic.2.map (fun p => p.gpuPerformance + p.cpuPerformance)).sum / ((ic.2.length : ℚ) * 2)
      else 0
    let totalUsers : ℚ := (surveyData.map (fun entry =>
      (entry.gpuDistribution.map (fun gpu => jsOr gpu.percentage 1)).sum)).sum
    { id := "cluster-" ++ toString ic.1
      name := getClusterName avgPerformance
      avgPerformanceScore := avgPerformance
      commonGPUs := extractCommonGPUs ic.2 surveyData
      commonCPUs := extractCommonCPUs ic.2 surveyData
      userCount := ic.2.length
      percentage := if 0 < totalUsers then ((ic.2.length : ℚ) / totalUsers) * 100 else 0 })).filter
    (fun c => decide (0 < c.userCount))

def clusterUserProfiles (surveyData : List HardwareSurveyEntry) (k : ℕ) (seeds : ℕ → ℕ) :
    List UserCluster :=
  if surveyData.length = 0 then []
  else
    let points := extractClusterPoints surveyData
    if points.length = 0 then []
    else formatClusters (performKMeansClustering points k seeds) surveyData

/-! ## Concrete inputs used by counterexamples and witnesses -/

/-- The specification's six-month strictly increasing series
`[5, 7, 10, 13, 16, 20]` for a single model `"A"`. -/
def exGrow : List GPUMarketShare :=
  [⟨"A", 5, 0⟩, ⟨"A", 7, 1⟩, ⟨"A", 10, 2⟩, ⟨"A", 13, 3⟩, ⟨"A", 16, 4⟩, ⟨"A", 20, 5⟩]

/-- The mirrored strictly decreasing series. -/
def exDecl : List GPUMarketShare :=
  [⟨"A", 20, 0⟩, ⟨"A", 16, 1⟩, ⟨"A", 13, 2⟩, ⟨"A", 10, 3⟩, ⟨"A", 7, 4⟩, ⟨"A", 5, 5⟩]

/-- Three strictly increasing observations, fewer than the default window. -/
def exShort : List GPUMarketShare := [⟨"A", 5, 0⟩, ⟨"A", 10, 1⟩, ⟨"A", 20, 2⟩]

/-- Two observations with identical percentages (standard deviation 0). -/
def exFlat2 : List GPUMarketShare := [⟨"A", 10, 0⟩, ⟨"A", 10, 1⟩]

/-- A one-entry survey with a single GPU/CPU pair. -/
def exSurvey : List HardwareSurveyEntry :=
  [⟨0, [⟨"RTX 4070", 60, 0⟩], [⟨"Intel i7", 60, 0⟩], [], [⟨"16GB", 50, 0⟩]⟩]

/-! ## Helper lemmas -/

theorem le_jsRound (n : ℤ) (q : ℚ) (h : (n : ℚ) - 1/2 ≤ q) : (n : ℚ) ≤ jsRound q := by
  unfold jsRound
  exact_mod_cast Int.le_floor.mpr (by linarith)

theorem jsRound_le (n : ℤ) (q : ℚ) (h : q < (n : ℚ) + 1/2) : jsRound q ≤ (n : ℚ) := by
  unfold jsRound
  have : ⌊q + 1/2⌋ < n + 1 := Int.floor_lt.mpr (by push_cast; linarith)
  exact_mod_cast Int.lt_add_one_iff.mp this

theorem calculateVRAMMultiplier_pos (v g : ℚ) : 0 < calculateVRAMMultiplier v g := by
  simp only [calculateVRAMMultiplier]
  split_ifs <;> norm_num

theorem getArchitectureBonus_nonneg (a : String) : 0 ≤ getArchitectureBonus a := by
  simp only [getArchitectureBonus]
  split_ifs <;> norm_num

theorem calculateCoreMultiplier_pos (c t : ℚ) : 0 < calculateCoreMultiplier c t := by
  simp only [calculateCoreMultiplier]
  split_ifs <;> norm_num

theorem calculateFrequencyBonus_nonneg (b f : ℚ) : 0 ≤ calculateFrequencyBonus b f := by
  simp only [calculateFrequencyBonus]
  split_ifs <;> norm_num

theorem calculateGPUScore_bounds (gpu : GPUData) (game : GameRequirements)
    (h : 0 ≤ gpu.performanceScore) :
    0 ≤ calculateGPUScore gpu game ∧ calculateGPUScore gpu game ≤ 100 := by
  unfold calculateGPUScore
  refine ⟨le_min (by norm_num) ?_, min_le_left _ _⟩
  exact add_nonneg (mul_nonneg h (calculateVRAMMultiplier_pos _ _).le)
    (getArchitectureBonus_nonneg _)

theorem calculateCPUScore_bounds (cpu : CPUData) (h : 0 ≤ cpu.performanceScore) :
    0 ≤ calculateCPUScore cpu ∧ calculateCPUScore cpu ≤ 100 := by
  unfold calculateCPUScore
  refine ⟨le_min (by norm_num) ?_, min_le_left _ _⟩
  exact add_nonneg (mul_nonneg h (calculateCoreMultiplier_pos _ _).le)
    (calculateFrequencyBonus_nonneg _ _)

theorem calculateMemoryScore_bounds (v : ℚ) (game : GameRequirements) :
    20 ≤ calculateMemoryScore v game ∧ calculateMemoryScore v game ≤ 100 := by
  simp only [calculateMemoryScore]
  split_ifs <;> norm_num

theorem getBaselineFPS_bounds (name : String) :
    45 ≤ getBaselineFPS name ∧ getBaselineFPS name ≤ 200 := by
  simp only [getBaselineFPS]
  split_ifs <;> norm_num

theorem calculateOverallPerformance_bounds (g c m : ℚ)
    (hg0 : 0 ≤ g) (hg1 : g ≤ 100) (hc0 : 0 ≤ c) (hc1 : c ≤ 100)
    (hm0 : 20 ≤ m) (hm1 : m ≤ 100) :
    2 ≤ calculateOverallPerformance g c m ∧ calculateOverallPerformance g c m ≤ 100 := by
  simp only [calculateOverallPerformance]
  constructor
  · exact le_of_eq_of_le (by norm_num) (le_jsRound 2 _ (by linarith))
  · exact le_of_le_of_eq (jsRound_le 100 _ (by linarith)) (by norm_num)

/-! ## Claim theorems: bottleneck scorer -/

/-- C3: `determineBottleneckType` classifies `None` when the minimum score
exceeds 80; otherwise a score trailing both others by more than 15 points is
the sole bottleneck; otherwise the strictly smallest score is chosen; and
with no strictly smallest score the result is `None`. -/
theorem C3_bottleneck_classification (g c m : ℚ) :
    (80 < min g (min c m) → determineBottleneckType g c m = BottleneckType.None) ∧
    (min g (min c m) ≤ 80 → g < c - 15 ∧ g < m - 15 →
      determineBottleneckType g c m = BottleneckType.GPU) ∧
    (min g (min c m) ≤ 80 → c < g - 15 ∧ c < m - 15 →
      determineBottleneckType g c m = BottleneckType.CPU) ∧
    (min g (min c m) ≤ 80 → m < g - 15 ∧ m < c - 15 →
      determineBottleneckType g c m = BottleneckType.Memory) ∧
    (min g (min c m) ≤ 80 → ¬(g < c - 15 ∧ g < m - 15) → ¬(c < g - 15 ∧ c < m - 15) →
      ¬(m < g - 15 ∧ m < c - 15) → g < c ∧ g < m →
      determineBottleneckType g c m = BottleneckType.GPU) ∧
    (min g (min c m) ≤ 80 → ¬(g < c - 15 ∧ g < m - 15) → ¬(c < g - 15 ∧ c < m - 15) →
      ¬(m < g - 15 ∧ m < c - 15) → c < g ∧ c < m →
      determineBottleneckType g c m = BottleneckType.CPU) ∧
    (min g (min c m) ≤ 80 → ¬(g < c - 15 ∧ g < m - 15) → ¬(c < g - 15 ∧ c < m - 15) →
      ¬(m < g - 15 ∧ m < c - 15) → m < g ∧ m < c →
      determineBottleneckType g c m = BottleneckType.Memory) ∧
    (min g (min c m) ≤ 80 → ¬(g < c - 15 ∧ g < m - 15) → ¬(c < g - 15 ∧ c < m - 15) →
      ¬(m < g - 15 ∧ m < c - 15) → ¬(g < c ∧ g < m) → ¬(c < g ∧ c < m) → ¬(m < g ∧ m < c) →
      determineBottleneckType g c m = BottleneckType.None) := by
  refine ⟨?_, ?_, ?_, ?_, ?_, ?_, ?_, ?_⟩ <;>
    intros <;> simp only [determineBottleneckType] <;> split_ifs <;>
    first
      | rfl
      | (exfalso; simp only [lt_min_iff, min_le_iff, not_and_or, not_lt] at *;
         casesm* _ ∧ _, _ ∨ _ <;> linarith)

theorem C3_bottleneck_classification_witness :
    (80 < min (90 : ℚ) (min 90 90) ∧
      determineBottleneckType 90 90 90 = BottleneckType.None) ∧
    (min (30 : ℚ) (min 60 60) ≤ 80 ∧
      determineBottleneckType 30 60 60 = BottleneckType.GPU) ∧
    (min (70 : ℚ) (min 75 80) ≤ 80 ∧
      determineBottleneckType 70 75 80 = BottleneckType.GPU) ∧
    (min (70 : ℚ) (min 70 80) ≤ 80 ∧
      determineBottleneckType 70 70 80 = BottleneckType.None) :=
  ⟨⟨by norm_num [min_def], (C3_bottleneck_classification 90 90 90).1 (by norm_num [min_def])⟩,
   ⟨by norm_num [min_def],
    (C3_bottleneck_classification 30 60 60).2.1 (by norm_num [min_def])
      ⟨by norm_num, by norm_num⟩⟩,
   ⟨by norm_num [min_def],
    (C3_bottleneck_classification 70 75 80).2.2.2.2.1 (by norm_num [min_def])
      (by norm_num) (by norm_num) (by norm_num) ⟨by norm_num, by norm_num⟩⟩,
   ⟨by norm_num [min_def],
    (C3_bottleneck_classification 70 70 80).2.2.2.2.2.2.2 (by norm_num [min_def])
      (by norm_num) (by norm_num) (by norm_num)
      (by norm_num) (by norm_num) (by norm_num)⟩⟩

/-- C6: on the specification's example configuration (GPU score 30 with 4GB
VRAM on Ampere, CPU score 95, game wanting 8GB), the bottleneck is GPU or
Memory (in fact GPU) and the overall score is strictly below the CPU's own
95, whatever the game is called. -/
theorem C6_example_scenario (name : String) :
    ((calculateBottleneck ⟨"G", 30, 4, "Ampere"⟩ ⟨"C", "Intel", 95, 16, 24, 3.4, 5.4⟩
        ⟨name, 8⟩).bottleneckType = BottleneckType.GPU ∨
     (calculateBottleneck ⟨"G", 30, 4, "Ampere"⟩ ⟨"C", "Intel", 95, 16, 24, 3.4, 5.4⟩
        ⟨name, 8⟩).bottleneckType = BottleneckType.Memory) ∧
    (calculateBottleneck ⟨"G", 30, 4, "Ampere"⟩ ⟨"C", "Intel", 95, 16, 24, 3.4, 5.4⟩
        ⟨name, 8⟩).performanceScore < 95 := by
  have harch : getArchitectureBonus "Ampere" = 3 := by decide
  have hgpu : calculateGPUScore ⟨"G", 30, 4, "Ampere"⟩ ⟨name, 8⟩ = 24 := by
    norm_num [calculateGPUScore, calculateVRAMMultiplier, harch, max_def, min_def]
  have hcpu : calculateCPUScore ⟨"C", "Intel", 95, 16, 24, 3.4, 5.4⟩ = 100 := by
    norm_num [calculateCPUScore, calculateCoreMultiplier, calculateFrequencyBonus,
      max_def, min_def]
  have hmem : calculateMemoryScore 4 ⟨name, 8⟩ = 40 := by
    norm_num [calculateMemoryScore, jsOr]
  constructor
  · left
    show determineBottleneckType
      (calculateGPUScore ⟨"G", 30, 4, "Ampere"⟩ ⟨name, 8⟩)
      (calculateCPUScore ⟨"C", "Intel", 95, 16, 24, 3.4, 5.4⟩)
      (calculateMemoryScore 4 ⟨name, 8⟩) = BottleneckType.GPU
    rw [hgpu, hcpu, hmem]
    norm_num [determineBottleneckType, min_def]
  · show calculateOverallPerformance
      (calculateGPUScore ⟨"G", 30, 4, "Ampere"⟩ ⟨name, 8⟩)
      (calculateCPUScore ⟨"C", "Intel", 95, 16, 24, 3.4, 5.4⟩)
      (calculateMemoryScore 4 ⟨name, 8⟩) < 95
    rw [hgpu, hcpu, hmem]
    norm_num [calculateOverallPerformance, jsRound]

/-- C7: for scores in [0,100] and nonnegative VRAM, the expected FPS is
strictly between 0 and 500; the memory sub-score is always at least 20, the
rounded overall score at least 2, and every per-title baseline at most 200. -/
theorem C7_expectedFPS_bounds (gpu : GPUData) (cpu : CPUData) (game : GameRequirements)
    (hg0 : 0 ≤ gpu.performanceScore) (hg1 : gpu.performanceScore ≤ 100)
    (hc0 : 0 ≤ cpu.performanceScore) (hc1 : cpu.performanceScore ≤ 100)
    (hv : 0 ≤ gpu.vram) :
    0 < (calculateBottleneck gpu cpu game).expectedFPS ∧
    (calculateBottleneck gpu cpu game).expectedFPS < 500 ∧
    20 ≤ calculateMemoryScore gpu.vram game ∧
    2 ≤ (calculateBottleneck gpu cpu game).performanceScore ∧
    ∀ name, getBaselineFPS name ≤ 200 := by
  obtain ⟨hga, hgb⟩ := calculateGPUScore_bounds gpu game hg0
  obtain ⟨hca, hcb⟩ := calculateCPUScore_bounds cpu hc0
  obtain ⟨hma, hmb⟩ := calculateMemoryScore_bounds gpu.vram game
  obtain ⟨hova, hovb⟩ := calculateOverallPerformance_bounds
    (calculateGPUScore gpu game) (calculateCPUScore cpu) (calculateMemoryScore gpu.vram game)
    hga hgb hca hcb hma hmb
  obtain ⟨hba, hbb⟩ := getBaselineFPS_bounds game.name
  have hfps : (calculateBottleneck gpu cpu game).expectedFPS
      = estimateExpectedFPS
          (calculateOverallPerformance (calculateGPUScore gpu game) (calculateCPUScore cpu)
            (calculateMemoryScore gpu.vram game)) game := rfl
  have hscore : (calculateBottleneck gpu cpu game).performanceScore
      = calculateOverallPerformance (calculateGPUScore gpu game) (calculateCPUScore cpu)
          (calculateMemoryScore gpu.vram game) := rfl
  set ov := calculateOverallPerformance (calculateGPUScore gpu game) (calculateCPUScore cpu)
    (calculateMemoryScore gpu.vram game) with hov
  have hprod0 : (1 : ℚ) - 1/2 ≤ getBaselineFPS game.name * (ov / 100) := by
    nlinarith [mul_nonneg (sub_nonneg.mpr hba) (sub_nonneg.mpr hova)]
  have hprod1 : getBaselineFPS game.name * (ov / 100) < (200 : ℚ) + 1/2 := by
    nlinarith [mul_nonneg (sub_nonneg.mpr hba) (sub_nonneg.mpr hova),
      mul_nonneg (sub_nonneg.mpr hbb) (sub_nonneg.mpr hovb)]
  refine ⟨?_, ?_, hma, ?_, fun name => (getBaselineFPS_bounds name).2⟩
  · rw [hfps]
    calc (0 : ℚ) < 1 := by norm_num
    _ ≤ estimateExpectedFPS ov game := by
        simpa [estimateExpectedFPS] using
          le_jsRound 1 (getBaselineFPS game.name * (ov / 100)) hprod0
  · rw [hfps]
    have h200 : estimateExpectedFPS ov game ≤ 200 := by
      simpa [estimateExpectedFPS] using
        jsRound_le 200 (getBaselineFPS game.name * (ov / 100)) hprod1
    linarith
  · rw [hscore]
    exact hova

theorem C7_expectedFPS_bounds_witness :
    ((0 : ℚ) ≤ 50 ∧ (50 : ℚ) ≤ 100 ∧ (0 : ℚ) ≤ 8) ∧
    0 < (calculateBottleneck ⟨"G", 50, 8, "Pascal"⟩ ⟨"C", "Intel", 50, 4, 4, 3, 3⟩
      ⟨"Some Game", 8⟩).expectedFPS ∧
    (calculateBottleneck ⟨"G", 50, 8, "Pascal"⟩ ⟨"C", "Intel", 50, 4, 4, 3, 3⟩
      ⟨"Some Game", 8⟩).expectedFPS < 500 :=
  ⟨⟨by norm_num, by norm_num, by norm_num⟩,
   (C7_expectedFPS_bounds ⟨"G", 50, 8, "Pascal"⟩ ⟨"C", "Intel", 50, 4, 4, 3, 3⟩
      ⟨"Some Game", 8⟩ (by norm_num) (by norm_num) (by norm_num) (by norm_num)
      (by norm_num)).1,
   (C7_expectedFPS_bounds ⟨"G", 50, 8, "Pascal"⟩ ⟨"C", "Intel", 50, 4, 4, 3, 3⟩
      ⟨"Some Game", 8⟩ (by norm_num) (by norm_num) (by norm_num) (by norm_num)
      (by norm_num)).2.1⟩

/-- C10: with strictly positive GPU and CPU scores every emitted
`expectedImprovement` is a finite number (`isSome` in the model); with a zero
GPU score a GPU upgrade option is still emitted (0 < 70) and its improvement
is the non-finite `none`. -/
theorem C10_upgrade_improvement_finite (gpu : GPUData) (cpu : CPUData)
    (game : GameRequirements) :
    (0 < gpu.performanceScore → 0 < cpu.performanceScore →
      ((calculateBottleneck gpu cpu game).upgradeOptions).all
        (fun o => o.expectedImprovement.isSome) = true) ∧
    (gpu.performanceScore = 0 →
      ((calculateBottleneck gpu cpu game).upgradeOptions).any
        (fun o => decide (o.component = UpgradeComponent.GPU) &&
          decide (o.expectedImprovement = none)) = true) := by
  constructor
  · intro hg hc
    have hg0 : gpu.performanceScore ≠ 0 := ne_of_gt hg
    have hc0 : cpu.performanceScore ≠ 0 := ne_of_gt hc
    show (generateUpgradeOptions gpu cpu game _).all _ = true
    simp only [generateUpgradeOptions, List.all_append, Bool.and_eq_true]
    refine ⟨⟨?_, ?_⟩, ?_⟩ <;> split_ifs <;>
      simp [calculateGPUUpgradeImprovement, calculateCPUUpgradeImprovement, hg0, hc0]
  · intro hz
    show (generateUpgradeOptions gpu cpu game _).any _ = true
    have hcond : determineBottleneckType (calculateGPUScore gpu game) (calculateCPUScore cpu)
        (calculateMemoryScore gpu.vram game) = BottleneckType.GPU ∨
        gpu.performanceScore < 70 := Or.inr (by rw [hz]; norm_num)
    simp only [generateUpgradeOptions, if_pos hcond, List.any_append, List.any_cons,
      Bool.or_eq_true]
    left
    left
    simp [calculateGPUUpgradeImprovement, hz]

theorem C10_upgrade_improvement_finite_witness :
    ((0 : ℚ) < 30 ∧ (0 : ℚ) < 95 ∧
      ((calculateBottleneck ⟨"G", 30, 4, "Ampere"⟩ ⟨"C", "Intel", 95, 16, 24, 3.4, 5.4⟩
          ⟨"Game", 8⟩).upgradeOptions).all
        (fun o => o.expectedImprovement.isSome) = true) ∧
    ((⟨"G", 0, 4, "Ampere"⟩ : GPUData).performanceScore = 0 ∧
      ((calculateBottleneck ⟨"G", 0, 4, "Ampere"⟩ ⟨"C", "Intel", 95, 16, 24, 3.4, 5.4⟩
          ⟨"Game", 8⟩).upgradeOptions).any
        (fun o => decide (o.component = UpgradeComponent.GPU) &&
          decide (o.expectedImprovement = none)) = true) :=
  ⟨⟨by norm_num, by norm_num,
    (C10_upgrade_improvement_finite ⟨"G", 30, 4, "Ampere"⟩
      ⟨"C", "Intel", 95, 16, 24, 3.4, 5.4⟩ ⟨"Game", 8⟩).1 (by norm_num) (by norm_num)⟩,
   ⟨rfl,
    (C10_upgrade_improvement_finite ⟨"G", 0, 4, "Ampere"⟩
      ⟨"C", "Intel", 95, 16, 24, 3.4, 5.4⟩ ⟨"Game", 8⟩).2 rfl⟩⟩

/-! ## Association-list lemmas for the trend detector -/

theorem isDirection_iff (d : TrendDirection) (p : String × ModelTrend) :
    isDirection d p = true ↔ p.2.direction = d := by
  cases hp : p.2.direction <;> cases d <;> simp [isDirection, hp]

theorem insertEntry_map_fst_mem (groups : List (String × List GPUMarketShare))
    (e : GPUMarketShare) (m : String) :
    m ∈ (insertEntry groups e).map Prod.fst ↔
      m ∈ groups.map Prod.fst ∨ m = e.gpuModel := by
  induction groups with
  | nil => simp [insertEntry]
  | cons g rest ih =>
    obtain ⟨k, v⟩ := g
    by_cases hk : k = e.gpuModel
    · subst hk
      simp only [insertEntry, ↓reduceIte, List.map_cons, List.mem_cons]
      tauto
    · simp only [insertEntry, if_neg hk, List.map_cons, List.mem_cons, ih]
      tauto

theorem insertEntry_map_fst_nodup (groups : List (String × List GPUMarketShare))
    (e : GPUMarketShare) (h : (groups.map Prod.fst).Nodup) :
    ((insertEntry groups e).map Prod.fst).Nodup := by
  induction groups with
  | nil => simp [insertEntry]
  | cons g rest ih =>
    obtain ⟨k, v⟩ := g
    simp only [List.map_cons, List.nodup_cons] at h
    by_cases hk : k = e.gpuModel
    · subst hk
      simp only [insertEntry, ↓reduceIte, List.map_cons, List.nodup_cons]
      exact h
    · simp only [insertEntry, if_neg hk, List.map_cons, List.nodup_cons]
      refine ⟨fun hmem => ?_, ih h.2⟩
      rcases (insertEntry_map_fst_mem rest e k).mp hmem with h1 | h1
      · exact h.1 h1
      · exact hk h1

theorem foldl_insertEntry_mem (hist : List GPUMarketShare) :
    ∀ (acc : List (String × List GPUMarketShare)) (m : String),
      m ∈ (hist.foldl insertEntry acc).map Prod.fst ↔
        m ∈ acc.map Prod.fst ∨ m ∈ hist.map GPUMarketShare.gpuModel := by
  induction hist with
  | nil => intro acc m; simp
  | cons e rest ih =>
    intro acc m
    simp only [List.foldl_cons, List.map_cons, List.mem_cons]
    rw [ih, insertEntry_map_fst_mem]
    tauto

theorem foldl_insertEntry_nodup (hist : List GPUMarketShare) :
    ∀ (acc : List (String × List GPUMarketShare)), (acc.map Prod.fst).Nodup →
      ((hist.foldl insertEntry acc).map Prod.fst).Nodup := by
  induction hist with
  | nil => intro acc h; simpa using h
  | cons e rest ih =>
    intro acc h
    exact ih _ (insertEntry_map_fst_nodup acc e h)

theorem groupByModel_mem_keys (hist : List GPUMarketShare) (m : String) :
    m ∈ (groupByModel hist).map Prod.fst ↔ m ∈ hist.map GPUMarketShare.gpuModel := by
  unfold groupByModel
  rw [foldl_insertEntry_mem]
  simp

theorem groupByModel_keys_nodup (hist : List GPUMarketShare) :
    ((groupByModel hist).map Prod.fst).Nodup :=
  foldl_insertEntry_nodup hist [] (by simp)

theorem analyzeModelTrends_map_fst (hist : List GPUMarketShare) (w : ℕ) :
    (analyzeModelTrends hist w).map Prod.fst = (groupByModel hist).map Prod.fst := by
  unfold analyzeModelTrends
  rw [List.map_map]
  apply List.map_congr_left
  intro g _
  by_cases h : (sortPoints g.2).length < 2 <;> simp [h]

theorem assoc_eq_of_nodup {α : Type} {l : List (String × α)}
    (h : (l.map Prod.fst).Nodup) {m : String} {t1 t2 : α}
    (h1 : (m, t1) ∈ l) (h2 : (m, t2) ∈ l) : t1 = t2 := by
  induction l with
  | nil => cases h1
  | cons p rest ih =>
    simp only [List.map_cons, List.nodup_cons] at h
    rcases List.mem_cons.mp h1 with e1 | m1 <;> rcases List.mem_cons.mp h2 with e2 | m2
    · rw [← e2] at e1
      exact (Prod.mk.injEq _ _ _ _).mp e1 |>.2
    · exfalso
      apply h.1
      have h2m : (m, t2).1 ∈ List.map Prod.fst rest := List.mem_map_of_mem Prod.fst m2
      rw [← e1]
      simpa using h2m
    · exfalso
      apply h.1
      have h1m : (m, t1).1 ∈ List.map Prod.fst rest := List.mem_map_of_mem Prod.fst m1
      rw [← e2]
      simpa using h1m
    · exact ih h.2 m1 m2

theorem mem_filter_direction (l : List (String × ModelTrend)) (d : TrendDirection)
    (m : String) :
    m ∈ ((l.filter (isDirection d)).map Prod.fst) ↔
      ∃ t, (m, t) ∈ l ∧ t.direction = d := by
  simp only [List.mem_map, List.mem_filter]
  constructor
  · rintro ⟨p, ⟨hp, hd⟩, rfl⟩
    refine ⟨p.2, ?_, (isDirection_iff d p).mp hd⟩
    simpa using hp
  · rintro ⟨t, ht, hd⟩
    exact ⟨(m, t), ⟨ht, (isDirection_iff d (m, t)).mpr hd⟩, rfl⟩

theorem detectMarketTrends_growing (hist : List GPUMarketShare) (w : ℕ)
    (h : ¬hist.length = 0) :
    (detectMarketTrends hist w).growing =
      ((analyzeModelTrends hist w).filter (isDirection .growing)).map Prod.fst := by
  simp [detectMarketTrends, h]

theorem detectMarketTrends_declining (hist : List GPUMarketShare) (w : ℕ)
    (h : ¬hist.length = 0) :
    (detectMarketTrends hist w).declining =
      ((analyzeModelTrends hist w).filter (isDirection .declining)).map Prod.fst := by
  simp [detectMarketTrends, h]

theorem detectMarketTrends_stable (hist : List GPUMarketShare) (w : ℕ)
    (h : ¬hist.length = 0) :
    (detectMarketTrends hist w).stable =
      ((analyzeModelTrends hist w).filter (isDirection .stable)).map Prod.fst := by
  simp [detectMarketTrends, h]

/-- C9: on non-empty input, every model occurring in the observations lands
in exactly one of the `growing` / `declining` / `stable` lists of
`detectMarketTrends` (the lists jointly cover the models and are pairwise
disjoint). -/
theorem C9_direction_partition (hist : List GPUMarketShare) (w : ℕ) (hne : hist ≠ [])
    (model : String) (hm : model ∈ hist.map GPUMarketShare.gpuModel) :
    (model ∈ (detectMarketTrends hist w).growing ∨
      model ∈ (detectMarketTrends hist w).declining ∨
      model ∈ (detectMarketTrends hist w).stable) ∧
    ¬(model ∈ (detectMarketTrends hist w).growing ∧
      model ∈ (detectMarketTrends hist w).declining) ∧
    ¬(model ∈ (detectMarketTrends hist w).growing ∧
      model ∈ (detectMarketTrends hist w).stable) ∧
    ¬(model ∈ (detectMarketTrends hist w).declining ∧
      model ∈ (detectMarketTrends hist w).stable) := by
  have hl : ¬hist.length = 0 := by
    simpa [List.length_eq_zero] using hne
  rw [detectMarketTrends_growing hist w hl, detectMarketTrends_declining hist w hl,
    detectMarketTrends_stable hist w hl]
  have hnodup : ((analyzeModelTrends hist w).map Prod.fst).Nodup := by
    rw [analyzeModelTrends_map_fst]
    exact groupByModel_keys_nodup hist
  have hex : ∃ t, (model, t) ∈ analyzeModelTrends hist w := by
    have hmem : model ∈ (analyzeModelTrends hist w).map Prod.fst := by
      rw [analyzeModelTrends_map_fst, groupByModel_mem_keys]
      exact hm
    obtain ⟨p, hp, he⟩ := List.mem_map.mp hmem
    obtain ⟨m0, t0⟩ := p
    exact ⟨t0, by rwa [show m0 = model from he] at hp⟩
  obtain ⟨t, ht⟩ := hex
  constructor
  · cases hdir : t.direction with
    | growing => exact Or.inl ((mem_filter_direction _ _ _).mpr ⟨t, ht, hdir⟩)
    | declining => exact Or.inr (Or.inl ((mem_filter_direction _ _ _).mpr ⟨t, ht, hdir⟩))
    | stable => exact Or.inr (Or.inr ((mem_filter_direction _ _ _).mpr ⟨t, ht, hdir⟩))
  · refine ⟨?_, ?_, ?_⟩ <;> rintro ⟨ha, hb⟩ <;>
      obtain ⟨t1, ht1, hd1⟩ := (mem_filter_direction _ _ _).mp ha <;>
      obtain ⟨t2, ht2, hd2⟩ := (mem_filter_direction _ _ _).mp hb <;>
      rw [assoc_eq_of_nodup hnodup ht1 ht2] at hd1 <;>
      rw [hd1] at hd2 <;> cases hd2

theorem C9_direction_partition_witness :
    exGrow ≠ [] ∧ "A" ∈ exGrow.map GPUMarketShare.gpuModel ∧
    ("A" ∈ (detectMarketTrends exGrow 6).growing ∨
      "A" ∈ (detectMarketTrends exGrow 6).declining ∨
      "A" ∈ (detectMarketTrends exGrow 6).stable) :=
  ⟨by decide, by decide,
   (C9_direction_partition exGrow 6 (by decide) "A" (by decide)).1⟩

/-- C1 counterexample: the specification's own six-point strictly increasing
example `[5, 7, 10, 13, 16, 20]`, fed to `detectMarketTrends` with the
default window 6, is classified `stable` (rate 0), not `growing`: with six
points and window 6 the smoothed series has a single point, so the fitted
slope is 0.  A series shorter than the window (three increasing points,
window 6) likewise yields `stable` with rate 0 — the window does not shrink
to the series length. -/
theorem C1_trend_window_counterexample :
    (detectMarketTrends exGrow 6).growing = [] ∧
    (detectMarketTrends exGrow 6).stable = ["A"] ∧
    (analyzeModelTrends exGrow 6).map (fun p => (p.1, p.2.direction, p.2.rate))
      = [("A", TrendDirection.stable, 0)] ∧
    (analyzeModelTrends exShort 6).map (fun p => (p.1, p.2.direction, p.2.rate))
      = [("A", TrendDirection.stable, 0)] := by
  have hg : groupByModel exGrow = [("A", exGrow)] := by decide
  have hs : sortPoints exGrow = exGrow := by decide
  have hlen : exGrow.length = 6 := by decide
  have hr6 : List.range 6 = [0, 1, 2, 3, 4, 5] := by decide
  have hma : calculateMovingAverages exGrow 6 = [⟨5, 71/6⟩] := by
    simp only [calculateMovingAverages, hlen, hr6]
    norm_num [exGrow]
  have hsl : calculateTrendSlope [⟨5, 71/6⟩] = 0 := by
    norm_num [calculateTrendSlope]
  have ha : analyzeModelTrends exGrow 6 =
      [("A", ⟨TrendDirection.stable, 0, calculateTrendConfidence exGrow 0, 6⟩)] := by
    simp only [analyzeModelTrends, hg, List.map_cons, List.map_nil, hs, hlen, hma, hsl]
    norm_num [determineTrendDirection]
  have hgs : groupByModel exShort = [("A", exShort)] := by decide
  have hss : sortPoints exShort = exShort := by decide
  have hlens : exShort.length = 3 := by decide
  have hmas : calculateMovingAverages exShort 6 = [] := by
    simp [calculateMovingAverages, hlens]
  have ha2 : analyzeModelTrends exShort 6 =
      [("A", ⟨TrendDirection.stable, 0, calculateTrendConfidence exShort 0, 3⟩)] := by
    simp only [analyzeModelTrends, hgs, List.map_cons, List.map_nil, hss, hlens, hmas]
    norm_num [calculateTrendSlope, determineTrendDirection]
  have hl : ¬exGrow.length = 0 := by decide
  refine ⟨?_, ?_, ?_, ?_⟩
  · rw [detectMarketTrends_growing exGrow 6 hl, ha]
    simp [isDirection]
  · rw [detectMarketTrends_stable exGrow 6 hl, ha]
    simp [isDirection]
  · simp [ha]
  · simp [ha2]

/-- C1 amended: a model with fewer sorted points than the window gets an
empty smoothed series, slope 0 and classification `stable` (the moving
average window does not shrink); with window 3 — the window the repository's
tests pair with these six-point series — the increasing example classifies
`growing` at rate 3 and the mirrored decreasing series `declining` at
rate 3. -/
theorem C1_trend_window_amended :
    (∀ (pts : List GPUMarketShare) (w : ℕ), pts.length < w →
      calculateMovingAverages pts w = [] ∧
      determineTrendDirection (calculateTrendSlope (calculateMovingAverages pts w))
        = TrendDirection.stable) ∧
    (analyzeModelTrends exGrow 3).map (fun p => (p.1, p.2.direction, p.2.rate))
      = [("A", TrendDirection.growing, 3)] ∧
    (analyzeModelTrends exDecl 3).map (fun p => (p.1, p.2.direction, p.2.rate))
      = [("A", TrendDirection.declining, 3)] := by
  refine ⟨fun pts w hw => ?_, ?_, ?_⟩
  · have hnil : calculateMovingAverages pts w = [] := by
      unfold calculateMovingAverages
      rw [List.drop_eq_nil_of_le
        (show (List.range pts.length).length ≤ w - 1 by
          rw [List.length_range]; omega)]
      simp
    refine ⟨hnil, ?_⟩
    rw [hnil]
    norm_num [calculateTrendSlope, determineTrendDirection]
  · have hg : groupByModel exGrow = [("A", exGrow)] := by decide
    have hs : sortPoints exGrow = exGrow := by decide
    have hlen : exGrow.length = 6 := by decide
    have hr6 : List.range 6 = [0, 1, 2, 3, 4, 5] := by decide
    have hr4 : List.range 4 = [0, 1, 2, 3] := by decide
    have hma : calculateMovingAverages exGrow 3 = [⟨2, 22/3⟩, ⟨3, 10⟩, ⟨4, 13⟩, ⟨5, 49/3⟩] := by
      simp only [calculateMovingAverages, hlen, hr6]
      norm_num [exGrow]
    have hsl : calculateTrendSlope [⟨2, 22/3⟩, ⟨3, 10⟩, ⟨4, 13⟩, ⟨5, 49/3⟩] = 3 := by
      norm_num [calculateTrendSlope, hr4]
    have ha : analyzeModelTrends exGrow 3 =
        [("A", ⟨TrendDirection.growing, 3, calculateTrendConfidence exGrow 3, 6⟩)] := by
      simp only [analyzeModelTrends, hg, List.map_cons, List.map_nil, hs, hlen, hma, hsl]
      norm_num [determineTrendDirection]
    simp [ha]
  · have hg : groupByModel exDecl = [("A", exDecl)] := by decide
    have hs : sortPoints exDecl = exDecl := by decide
    have hlen : exDecl.length = 6 := by decide
    have hr6 : List.range 6 = [0, 1, 2, 3, 4, 5] := by decide
    have hr4 : List.range 4 = [0, 1, 2, 3] := by decide
    have hma : calculateMovingAverages exDecl 3 =
        [⟨2, 49/3⟩, ⟨3, 13⟩, ⟨4, 10⟩, ⟨5, 22/3⟩] := by
      simp only [calculateMovingAverages, hlen, hr6]
      norm_num [exDecl]
    have hsl : calculateTrendSlope [⟨2, 49/3⟩, ⟨3, 13⟩, ⟨4, 10⟩, ⟨5, 22/3⟩] = -3 := by
      norm_num [calculateTrendSlope, hr4]
    have ha : analyzeModelTrends exDecl 3 =
        [("A", ⟨TrendDirection.declining, 3, calculateTrendConfidence exDecl (-3), 6⟩)] := by
      simp only [analyzeModelTrends, hg, List.map_cons, List.map_nil, hs, hlen, hma, hsl]
      norm_num [determineTrendDirection]
    simp [ha]

theorem C1_trend_window_amended_witness :
    exShort.length < 6 ∧ calculateMovingAverages exShort 6 = [] ∧
    determineTrendDirection (calculateTrendSlope (calculateMovingAverages exShort 6))
      = TrendDirection.stable :=
  ⟨by decide, (C1_trend_window_amended.1 exShort 6 (by decide)).1,
    (C1_trend_window_amended.1 exShort 6 (by decide)).2⟩

theorem calculateTrendConfidence_eq_specTrendConfidence (pts : List GPUMarketShare)
    (slope : ℚ) (h : 3 ≤ pts.length) :
    calculateTrendConfidence pts slope
      = specTrendConfidence (pts.map (fun p => p.percentage)) slope := by
  simp only [calculateTrendConfidence, specTrendConfidence, List.length_map]
  rw [if_neg (by omega)]

/-- C2 counterexample: the two-point group `exFlat2` (both percentages 10,
hence standard deviation 0) is reported with confidence 0 by the analysis —
`calculateTrendConfidence` returns 0 for *fewer than 3* points — while the
specification's formula, which switches to the zero-standard-deviation
convention for every group of at least 2 observations, gives 1. -/
theorem C2_confidence_counterexample :
    (analyzeModelTrends exFlat2 6).map (fun p => (p.1, p.2.confidence))
      = [("A", (0 : ℝ))] ∧
    specTrendConfidence (exFlat2.map (fun p => p.percentage)) 0 = 1 ∧
    ((0 : ℝ) ≠ 1) := by
  have hg : groupByModel exFlat2 = [("A", exFlat2)] := by decide
  have hs : sortPoints exFlat2 = exFlat2 := by decide
  have hlen : exFlat2.length = 2 := by decide
  have hma : calculateMovingAverages exFlat2 6 = [] := by
    simp [calculateMovingAverages, hlen]
  have hconf : calculateTrendConfidence exFlat2 0 = 0 := by
    simp only [calculateTrendConfidence, hlen]
    norm_num
  have hmap : exFlat2.map (fun p => p.percentage) = [10, 10] := by decide
  refine ⟨?_, ?_, by norm_num⟩
  · simp only [analyzeModelTrends, hg, List.map_cons, List.map_nil, hs, hlen, hma]
    norm_num [calculateTrendSlope, hconf]
  · rw [hmap]
    have hvar : (([(10 : ℚ), 10].map (fun v => (v - [(10 : ℚ), 10].sum /
        ([(10 : ℚ), 10].length : ℚ)) ^ 2)).sum / (([(10 : ℚ), 10].length : ℚ)) : ℚ) = 0 := by
      norm_num
    simp only [specTrendConfidence, hvar]
    norm_num [Real.sqrt_zero]

/-- C2 amended: the confidence the trend analysis reports through
`calculateTrendConfidence` is 0 for every group with fewer than 3
observations (not 2, as claimed); for groups of at least 3 observations it
equals the specification's formula
`min(|slope|/standardDeviation, 1) × min(count/12, 1)`, with the value-1
convention at standard deviation 0. -/
theorem C2_confidence_amended (dataPoints : List GPUMarketShare) (slope : ℚ) :
    (dataPoints.length < 3 → calculateTrendConfidence dataPoints slope = 0) ∧
    (3 ≤ dataPoints.length →
      calculateTrendConfidence dataPoints slope
        = specTrendConfidence (dataPoints.map (fun p => p.percentage)) slope) := by
  constructor
  · intro h
    simp only [calculateTrendConfidence]
    rw [if_pos h]
  · exact calculateTrendConfidence_eq_specTrendConfidence dataPoints slope

theorem C2_confidence_amended_witness :
    (exFlat2.length < 3 ∧ calculateTrendConfidence exFlat2 0 = 0) ∧
    (3 ≤ exShort.length ∧ calculateTrendConfidence exShort 1
      = specTrendConfidence (exShort.map (fun p => p.percentage)) 1) :=
  ⟨⟨by decide, (C2_confidence_amended exFlat2 0).1 (by decide)⟩,
   ⟨by decide, (C2_confidence_amended exShort 1).2 (by decide)⟩⟩

theorem foldl_preserve {α β : Type} (P : α → Prop) (f : List α → β → List α)
    (hf : ∀ acc g, (∀ p ∈ acc, P p) → ∀ p ∈ f acc g, P p) :
    ∀ (l : List β) (acc : List α), (∀ p ∈ acc, P p) → ∀ p ∈ l.foldl f acc, P p := by
  intro l
  induction l with
  | nil => intro acc h p hp; exact h p hp
  | cons g rest ih => intro acc h; exact ih _ (hf acc g h)

/-- C8: every percentage `predictMarketEvolution` forecasts is clamped into
`[0, 100]`, and the empty observation list yields the empty forecast. -/
theorem C8_prediction_clamped (historical : List GPUMarketShare) (monthsAhead : ℕ)
    (h : 1 ≤ monthsAhead) :
    (predictMarketEvolution historical monthsAhead).all
      (fun p => decide (0 ≤ p.percentage ∧ p.percentage ≤ 100)) = true ∧
    predictMarketEvolution [] monthsAhead = [] := by
  constructor
  · simp only [List.all_eq_true, decide_eq_true_eq]
    intro p hp
    simp only [predictMarketEvolution] at hp
    refine foldl_preserve (fun q => 0 ≤ q.percentage ∧ q.percentage ≤ 100) _
      ?_ _ [] (by simp) p hp
    intro acc g hacc q hq
    cases hgl : (sortPoints g.2).getLast? with
    | none =>
      rw [hgl] at hq
      exact hacc q hq
    | some lp =>
      rw [hgl] at hq
      rcases List.mem_append.mp hq with hq1 | hq2
      · exact hacc q hq1
      · obtain ⟨i, _, rfl⟩ := List.mem_map.mp hq2
        constructor
        · exact le_max_left 0 _
        · exact max_le (by norm_num) (min_le_left 100 _)
  · simp [predictMarketEvolution, groupByModel]

theorem C8_prediction_clamped_witness :
    1 ≤ 6 ∧
    (predictMarketEvolution exGrow 6).all
      (fun p => decide (0 ≤ p.percentage ∧ p.percentage ≤ 100)) = true ∧
    predictMarketEvolution [] 6 = [] :=
  ⟨by decide, (C8_prediction_clamped exGrow 6 (by decide)).1,
    (C8_prediction_clamped [] 6 (by decide)).2⟩

/-! ## Clustering lemmas -/

theorem snd_mem_of_mem_enum {α : Type} {x : ℕ × α} {l : List α} (h : x ∈ l.enum) :
    x.2 ∈ l := by
  rw [List.mem_enum_iff_get?] at h
  exact List.get?_mem h

theorem closestAux_fst_lt (point : ClusterPoint) (cs : List ClusterPoint) :
    ∀ (i n : ℕ) (acc : ℕ × ℚ), acc.1 < n → i + cs.length ≤ n →
      (closestAux point cs i acc).1 < n := by
  induction cs with
  | nil =>
    intro i n acc h _
    simpa [closestAux] using h
  | cons c rest ih =>
    intro i n acc h hle
    simp only [closestAux]
    apply ih
    · split_ifs with hd
      · simp only [List.length_cons] at hle
        simp only []
        omega
      · exact h
    · simp only [List.length_cons] at hle
      omega

theorem closestCentroidIndex_lt (point : ClusterPoint) (centroids : List ClusterPoint)
    (h : centroids ≠ []) : closestCentroidIndex point centroids < centroids.length := by
  cases centroids with
  | nil => exact absurd rfl h
  | cons c0 rest =>
    simp only [closestCentroidIndex, List.length_cons]
    exact closestAux_fst_lt point rest 1 (rest.length + 1) _ (by omega) (by omega)

theorem length_assignPointsToClusters (points centroids : List ClusterPoint) :
    (assignPointsToClusters points centroids).length = centroids.length := by
  simp [assignPointsToClusters]

theorem length_calculateNewCentroids (clusters : List (List ClusterPoint)) :
    (calculateNewCentroids clusters).length = clusters.length := by
  simp [calculateNewCentroids, List.enum_length]

theorem list_sum_map_add {α : Type} (l : List α) (f g : α → ℕ) :
    (l.map (fun x => f x + g x)).sum = (l.map f).sum + (l.map g).sum := by
  induction l with
  | nil => simp
  | cons a t ih => simp [ih]; omega

theorem sum_indicator_range (n m : ℕ) (h : m < n) :
    ((List.range n).map (fun i => if m = i then 1 else 0)).sum = 1 := by
  induction n with
  | zero => omega
  | succ n ih =>
    rw [List.range_succ, List.map_append, List.sum_append]
    by_cases hm : m = n
    · subst hm
      have hz : ((List.range m).map (fun i => if m = i then 1 else 0)).sum = 0 := by
        apply List.sum_eq_zero
        intro x hx
        obtain ⟨i, hi, rfl⟩ := List.mem_map.mp hx
        have : m ≠ i := by
          have := List.mem_range.mp hi
          omega
        simp [this]
      simp [hz]
    · have h' : m < n := by omega
      rw [ih h']
      simp [hm]

theorem sum_length_filter_range {α : Type} (n : ℕ) (f : α → ℕ) :
    ∀ (l : List α), (∀ p ∈ l, f p < n) →
      (((List.range n).map (fun i => (l.filter (fun p => decide (f p = i))).length)).sum)
        = l.length := by
  intro l
  induction l with
  | nil =>
    intro _
    simp
  | cons a t ih =>
    intro h
    have ha : f a < n := h a (List.mem_cons_self a t)
    have ht : ∀ p ∈ t, f p < n := fun p hp => h p (List.mem_cons_of_mem a hp)
    have hsplit : ∀ i : ℕ,
        ((a :: t).filter (fun p => decide (f p = i))).length
          = (if f a = i then 1 else 0) + (t.filter (fun p => decide (f p = i))).length := by
      intro i
      by_cases hai : f a = i <;> simp [List.filter_cons, hai] <;> omega
    simp only [hsplit]
    rw [list_sum_map_add, sum_indicator_range n (f a) ha, ih ht]
    simp only [List.length_cons]
    omega

theorem assignPointsToClusters_sizes_sum (points centroids : List ClusterPoint)
    (h : centroids ≠ []) :
    (((assignPointsToClusters points centroids).map (fun cl => cl.length)).sum)
      = points.length := by
  simp only [assignPointsToClusters, List.map_map, Function.comp]
  exact sum_length_filter_range centroids.length
    (fun p => closestCentroidIndex p centroids) points
    (fun p _ => closestCentroidIndex_lt p centroids h)

theorem kmeansGo_exists_assign (points : List ClusterPoint) :
    ∀ (fuel : ℕ) (centroids : List ClusterPoint), 1 ≤ fuel →
      ∃ c : List ClusterPoint, c.length = centroids.length ∧
        kmeansGo points centroids fuel = assignPointsToClusters points c := by
  intro fuel
  induction fuel with
  | zero => intro centroids h; omega
  | succ n ih =>
    intro centroids _
    simp only [kmeansGo]
    split_ifs with hcv
    · exact ⟨centroids, rfl, rfl⟩
    · have hn : 1 ≤ n := by
        rcases Nat.eq_zero_or_pos n with h0 | h0
        · subst h0
          simp at hcv
        · omega
      obtain ⟨c, hlen, heq⟩ :=
        ih (calculateNewCentroids (assignPointsToClusters points centroids)) hn
      refine ⟨c, ?_, heq⟩
      rw [hlen, length_calculateNewCentroids, length_assignPointsToClusters]

theorem sum_userCount_filter (l : List UserCluster) :
    ((l.filter (fun c => decide (0 < c.userCount))).map (fun c => c.userCount)).sum
      = (l.map (fun c => c.userCount)).sum := by
  induction l with
  | nil => rfl
  | cons c t ih =>
    by_cases hc : 0 < c.userCount
    · simp [List.filter_cons, hc, ih]
    · have hz : c.userCount = 0 := by omega
      simp [List.filter_cons, hc, ih, hz]

theorem formatClusters_userCount_sum (clusters : List (List ClusterPoint))
    (data : List HardwareSurveyEntry) :
    ((formatClusters clusters data).map (fun c => c.userCount)).sum
      = (clusters.map (fun cl => cl.length)).sum := by
  unfold formatClusters
  rw [sum_userCount_filter, List.map_map]
  have hcong : clusters.enum.map
      ((fun c => c.userCount) ∘ (fun ic : ℕ × List ClusterPoint =>
        ({ id := "cluster-" ++ toString ic.1,
           name := getClusterName (if 0 < ic.2.length then
             (ic.2.map (fun p => p.gpuPerformance + p.cpuPerformance)).sum
               / ((ic.2.length : ℚ) * 2) else 0),
           avgPerformanceScore := (if 0 < ic.2.length then
             (ic.2.map (fun p => p.gpuPerformance + p.cpuPerformance)).sum
               / ((ic.2.length : ℚ) * 2) else 0),
           commonGPUs := extractCommonGPUs ic.2 data,
           commonCPUs := extractCommonCPUs ic.2 data,
           userCount := ic.2.length,
           percentage := if 0 < (data.map (fun entry =>
               (entry.gpuDistribution.map (fun gpu => jsOr gpu.percentage 1)).sum)).sum then
             ((ic.2.length : ℚ) / (data.map (fun entry =>
               (entry.gpuDistribution.map (fun gpu => jsOr gpu.percentage 1)).sum)).sum) * 100
           else 0 } : UserCluster)))
      = clusters.enum.map (fun ic => ic.2.length) := by
    apply List.map_congr_left
    intro ic _
    rfl
  rw [hcong]
  rw [show (fun ic : ℕ × List ClusterPoint => ic.2.length)
      = (fun cl : List ClusterPoint => cl.length) ∘ Prod.snd from rfl]
  rw [← List.map_map, List.enum_map_snd]

theorem ite_bounds {c : Prop} [Decidable c] {a b lo hi : ℚ}
    (ha : lo ≤ a ∧ a ≤ hi) (hb : lo ≤ b ∧ b ≤ hi) :
    lo ≤ (if c then a else b) ∧ (if c then a else b) ≤ hi := by
  by_cases h : c <;> simp [h, ha, hb]

theorem estimateGPUPerformance_bounds (s : String) :
    0 ≤ estimateGPUPerformance s ∧ estimateGPUPerformance s ≤ 100 := by
  simp only [estimateGPUPerformance]
  repeat' apply ite_bounds
  all_goals norm_num

theorem estimateCPUPerformance_bounds (s : String) :
    0 ≤ estimateCPUPerformance s ∧ estimateCPUPerformance s ≤ 100 := by
  simp only [estimateCPUPerformance]
  repeat' apply ite_bounds
  all_goals norm_num

theorem extractClusterPoints_bounds (data : List HardwareSurveyEntry) :
    ∀ p ∈ extractClusterPoints data,
      0 ≤ p.gpuPerformance + p.cpuPerformance ∧ p.gpuPerformance + p.cpuPerformance ≤ 200 := by
  intro p hp
  unfold extractClusterPoints at hp
  obtain ⟨s, hs, hp⟩ := List.mem_join.mp hp
  obtain ⟨ei, _, rfl⟩ := List.mem_map.mp hs
  obtain ⟨gi, _, rfl⟩ := List.mem_map.mp hp
  have h1 := estimateGPUPerformance_bounds gi.2.gpuModel
  have h2 := estimateCPUPerformance_bounds (cpuModelOrUnknown
    ((ei.2.cpuDistribution.get? gi.1).orElse (fun _ => ei.2.cpuDistribution.get? 0)))
  constructor
  · exact add_nonneg h1.1 h2.1
  · linarith [h1.2, h2.2]

theorem formatClusters_avg_bounds (clusters : List (List ClusterPoint))
    (data : List HardwareSurveyEntry)
    (hb : ∀ cl ∈ clusters, ∀ p ∈ cl,
      0 ≤ p.gpuPerformance + p.cpuPerformance ∧ p.gpuPerformance + p.cpuPerformance ≤ 200) :
    ∀ c ∈ formatClusters clusters data,
      0 ≤ c.avgPerformanceScore ∧ c.avgPerformanceScore ≤ 100 := by
  intro c hc
  unfold formatClusters at hc
  obtain ⟨hmem, _⟩ := List.mem_filter.mp hc
  obtain ⟨ic, hic, rfl⟩ := List.mem_map.mp hmem
  have hcl : ic.2 ∈ clusters := snd_mem_of_mem_enum hic
  dsimp only
  by_cases h0 : 0 < ic.2.length
  · rw [if_pos h0]
    have hlen : (0 : ℚ) < (ic.2.length : ℚ) := by exact_mod_cast h0
    have hsum0 : 0 ≤ (ic.2.map (fun p => p.gpuPerformance + p.cpuPerformance)).sum := by
      apply List.sum_nonneg
      intro x hx
      obtain ⟨p, hp, rfl⟩ := List.mem_map.mp hx
      exact (hb ic.2 hcl p hp).1
    have hsum1 : (ic.2.map (fun p => p.gpuPerformance + p.cpuPerformance)).sum
        ≤ (ic.2.length : ℚ) * 200 := by
      have := List.sum_le_card_nsmul (ic.2.map (fun p => p.gpuPerformance + p.cpuPerformance))
        200 (by
          intro x hx
          obtain ⟨p, hp, rfl⟩ := List.mem_map.mp hx
          exact (hb ic.2 hcl p hp).2)
      rw [List.length_map, nsmul_eq_mul] at this
      exact this
    constructor
    · exact div_nonneg hsum0 (by positivity)
    · rw [div_le_iff (by positivity)]
      linarith
  · rw [if_neg h0]
    norm_num

theorem map_eq_replicate {α β : Type} (l : List α) (f : α → β) (v : β)
    (h : ∀ c ∈ l, f c = v) : l.map f = List.replicate l.length v := by
  induction l with
  | nil => simp
  | cons a t ih =>
    simp only [List.map_cons, List.length_cons, List.replicate_succ]
    rw [h a (List.mem_cons_self a t), ih (fun c hc => h c (List.mem_cons_of_mem a hc))]

/-- C4: for every survey input, cluster count `k ≥ 1` and every outcome of
the random centroid initialization, the `userCount`s of the returned
clusters sum to the number of extracted feature points, every
`avgPerformanceScore` lies in `[0, 100]`, and the empty input returns `[]`. -/
theorem C4_cluster_invariants (surveyData : List HardwareSurveyEntry) (k : ℕ)
    (seeds : ℕ → ℕ) (hk : 1 ≤ k) :
    ((clusterUserProfiles surveyData k seeds).map (fun c => c.userCount)).sum
        = (extractClusterPoints surveyData).length ∧
    (∀ c ∈ clusterUserProfiles surveyData k seeds,
      0 ≤ c.avgPerformanceScore ∧ c.avgPerformanceScore ≤ 100) ∧
    clusterUserProfiles [] k seeds = [] := by
  refine ⟨?_, ?_, ?_⟩
  · simp only [clusterUserProfiles]
    split_ifs with h1 h2
    · have hnil : surveyData = [] := List.length_eq_zero.mp h1
      subst hnil
      simp [extractClusterPoints]
    · simp [h2]
    · unfold performKMeansClustering
      obtain ⟨c, hlen, heq⟩ := kmeansGo_exists_assign (extractClusterPoints surveyData) 100
        (initializeCentroids (extractClusterPoints surveyData) k seeds) (by norm_num)
      rw [heq, formatClusters_userCount_sum]
      apply assignPointsToClusters_sizes_sum
      have hck : c.length = k := by
        rw [hlen]
        simp [initializeCentroids]
      intro hnil
      rw [hnil] at hck
      simp at hck
      omega
  · intro cl hcl
    simp only [clusterUserProfiles] at hcl
    split_ifs at hcl with h1 h2
    · exact absurd hcl (List.not_mem_nil cl)
    · exact absurd hcl (List.not_mem_nil cl)
    · unfold performKMeansClustering at hcl
      obtain ⟨c, hlen, heq⟩ := kmeansGo_exists_assign (extractClusterPoints surveyData) 100
        (initializeCentroids (extractClusterPoints surveyData) k seeds) (by norm_num)
      rw [heq] at hcl
      refine formatClusters_avg_bounds _ _ ?_ cl hcl
      intro cluster hcluster p hp
      have hpts : p ∈ extractClusterPoints surveyData := by
        unfold assignPointsToClusters at hcluster
        obtain ⟨i, _, rfl⟩ := List.mem_map.mp hcluster
        exact (List.mem_filter.mp hp).1
      exact extractClusterPoints_bounds surveyData p hpts
  · simp [clusterUserProfiles]

theorem C4_cluster_invariants_witness :
    1 ≤ 1 ∧
    ((clusterUserProfiles exSurvey 1 (fun _ => 0)).map (fun c => c.userCount)).sum
      = (extractClusterPoints exSurvey).length ∧
    clusterUserProfiles [] 1 (fun _ => 0) = [] :=
  ⟨by decide,
   (C4_cluster_invariants exSurvey 1 (fun _ => 0) (by decide)).1,
   (C4_cluster_invariants exSurvey 1 (fun _ => 0) (by decide)).2.2⟩

/-- C5: every cluster returned by one call to `clusterUserProfiles` carries
the same `commonGPUs` and `commonCPUs` lists — the top-3-by-weight tally of
the whole input survey data (the cluster argument of
`extractCommonGPUs`/`extractCommonCPUs` is ignored, as the equality with the
empty-cluster tally shows). -/
theorem C5_common_hardware_global (surveyData : List HardwareSurveyEntry) (k : ℕ)
    (seeds : ℕ → ℕ) :
    (clusterUserProfiles surveyData k seeds).map (fun c => c.commonGPUs)
      = List.replicate (clusterUserProfiles surveyData k seeds).length
          (extractCommonGPUs [] surveyData) ∧
    (clusterUserProfiles surveyData k seeds).map (fun c => c.commonCPUs)
      = List.replicate (clusterUserProfiles surveyData k seeds).length
          (extractCommonCPUs [] surveyData) := by
  have hmem : ∀ c ∈ clusterUserProfiles surveyData k seeds,
      c.commonGPUs = extractCommonGPUs [] surveyData ∧
      c.commonCPUs = extractCommonCPUs [] surveyData := by
    intro c hc
    simp only [clusterUserProfiles] at hc
    split_ifs at hc with h1 h2
    · exact absurd hc (List.not_mem_nil c)
    · exact absurd hc (List.not_mem_nil c)
    · unfold formatClusters at hc
      obtain ⟨hm, _⟩ := List.mem_filter.mp hc
      obtain ⟨ic, _, rfl⟩ := List.mem_map.mp hm
      exact ⟨rfl, rfl⟩
  exact ⟨map_eq_replicate _ _ _ (fun c hc => (hmem c hc).1),
    map_eq_replicate _ _ _ (fun c hc => (hmem c hc).2)⟩
